import Mathlib

/-!
Verification of the TSE ingestion pipeline (`src/ingestor.py`).

Shallow embedding of the ingestion module of the `veleitoral_api` repository.
Data frames are modelled as a list of column names together with rows given by
association lists from column name to optional cell content (`none` models a
missing value / pandas `NaN`).  All functions below are transcribed from
`src/ingestor.py`; the pandas- and filesystem-level behaviour they rely on
(CSV parsing outcomes, the data-directory listing) is represented abstractly
as input data.
-/

set_option synthInstance.maxSize 1024

namespace Ingestor

/-! ## String helpers (embedding of `in`, `str.upper`, `re.search` fragments) -/

/-- ASCII upper-casing of one character (the fragment of `str.upper` the
file names and column names of this repository exercise). -/
def charUpper (c : Char) : Char :=
  if 'a' ≤ c && c ≤ 'z' then Char.ofNat (c.toNat - 32) else c

/-- Embedding of Python's `str.upper()` on ASCII strings. -/
def maiusculas (s : String) : String :=
  String.mk (s.toList.map charUpper)

/-- Strips leading and trailing spaces (the whitespace handling of
`pandas.to_numeric` on string cells). -/
def tiraEspacos (cs : List Char) : List Char :=
  ((cs.dropWhile (fun c => c == ' ')).reverse.dropWhile (fun c => c == ' ')).reverse

/-- Test that the character list `a` is an initial segment of `b`. -/
def temPrefixo : List Char → List Char → Bool
  | [], _ => true
  | _ :: _, [] => false
  | a :: as, b :: bs => a == b && temPrefixo as bs

/-- Test that the character list `a` occurs contiguously inside `b`
(embedding of Python's substring test `a in b`). -/
def contemSub (ag : List Char) : List Char → Bool
  | [] => temPrefixo ag []
  | c :: resto => temPrefixo ag (c :: resto) || contemSub ag resto

/-- Substring test on strings, `contemTexto needle hay` = Python `needle in hay`. -/
def contemTexto (ag s : String) : Bool :=
  contemSub ag.toList s.toList

/-- Reads a run of decimal digits, accumulating their value; fails on the first
non-digit character.  Helper for the numeric-coercion model. -/
def leDigitos : Nat → List Char → Option Nat
  | acc, [] => some acc
  | acc, c :: cs => if c.isDigit then leDigitos (acc * 10 + (c.toNat - 48)) cs else none

/-- Modelled fragment of `pandas.to_numeric` on a string cell: optional sign
followed by a non-empty run of decimal digits (surrounding whitespace stripped);
every other string — including float or scientific notation, which does not
occur in the integer counter columns this pipeline coerces — is treated as
unparseable (`none`, i.e. NaN). -/
def paraInteiro (s : String) : Option Int :=
  match tiraEspacos s.toList with
  | [] => none
  | '-' :: cs =>
    match cs with
    | [] => none
    | _ :: _ => (leDigitos 0 cs).map (fun n => -(n : Int))
  | '+' :: cs =>
    match cs with
    | [] => none
    | _ :: _ => (leDigitos 0 cs).map (fun n => (n : Int))
  | cs => (leDigitos 0 cs).map (fun n => (n : Int))

/-! ## Frames: the model of a pandas `DataFrame` read with `dtype=str` -/

/-- One row: an association list from column name to optional cell content.
A missing binding and a `none` binding both model a NaN cell. -/
abbrev Linha := List (String × Option String)

/-- A data frame: the column names plus the rows. -/
structure Frame where
  cols : List String
  rows : List Linha
deriving DecidableEq, Repr

/-- Cell access `row[col]` (NaN when the binding is absent). -/
def celula (r : Linha) (c : String) : Option String :=
  match r.find? (fun p => p.1 == c) with
  | some p => p.2
  | none => none

/-- Column access guarded by presence, embedding the pervasive pattern
`df["X"] if "X" in df.columns else None` evaluated at one row. -/
def seTem (df : Frame) (c : String) (r : Linha) : Option String :=
  if df.cols.contains c then celula r c else none

/-- Embedding of `df.get("C", pd.Series([None])).iloc[0]`: the first row's cell of column
`c` when the column exists, else `None`. -/
def primeiraCelula (df : Frame) (c : String) : Option String :=
  if df.cols.contains c then df.rows.head?.bind (fun r => celula r c) else none

/-! ## Sentinel cleaning: `df.replace({"#NULO": None, "#NE": None})` -/

/-- Per-cell sentinel replacement: the two textual null markers of the source
authority become true absence.  Applied to the whole frame *before* any
numeric coercion (line 155 of `ingestor.py` precedes line 179). -/
def limparSentinela : Option String → Option String
  | none => none
  | some s => if s == "#NULO" || s == "#NE" then none else some s

/-- Sentinel replacement over one row. -/
def limparLinha (r : Linha) : Linha :=
  r.map (fun p => (p.1, limparSentinela p.2))

/-- Sentinel replacement over the whole frame (column names untouched). -/
def limparFrame (df : Frame) : Frame :=
  ⟨df.cols, df.rows.map limparLinha⟩

/-- Per-cell embedding of
`pd.to_numeric(col, errors="coerce").fillna(0).astype(int)`:
missing or unparseable cells coerce to `0`, parseable signed numerals pass
through unchanged. -/
def paraNumero : Option String → Int
  | none => 0
  | some s => (paraInteiro s).getD 0

/-! ## `detectar_colunas` (the Column Resolver) -/

/-- The result of `detectar_colunas`: physical column chosen for each role. -/
structure Colunas where
  vote : String
  cand : Option String
  party : Option String
  zona : Option String
  secao : Option String
deriving DecidableEq, Repr

/-- The fixed priority order of vote-count aliases tried by `detectar_colunas`. -/
def colunasVotoPrioridade : List String :=
  ["QT_VOTOS_NOMINAIS", "QT_VOTOS_NOMINAIS_VALIDOS", "QT_VOTOS", "QT_VOTOS_VALIDOS"]

/-- The `for c in [...]: if c in df.columns: vote_col = c; break` loop. -/
def escolheColuna : List String → List String → Option String
  | [], _ => none
  | c :: cs, cols => if cols.contains c then some c else escolheColuna cs cols

/-- Embedding of `detectar_colunas` (`ingestor.py` lines 24–66): picks the
vote-count column by the fixed priority order, returning `none` when no alias
is present; the candidate/party/zone/section roles are optional. -/
def detectar_colunas (df : Frame) : Option Colunas :=
  match escolheColuna colunasVotoPrioridade df.cols with
  | none => none
  | some vc =>
    let cand :=
      if df.cols.contains "NM_CANDIDATO" then some "NM_CANDIDATO"
      else if df.cols.contains "NM_URNA_CANDIDATO" then some "NM_URNA_CANDIDATO"
      else none
    let party :=
      if df.cols.contains "SG_PARTIDO" then some "SG_PARTIDO"
      else if df.cols.contains "NM_PARTIDO" then some "NM_PARTIDO"
      else none
    let zona := if df.cols.contains "NR_ZONA" then some "NR_ZONA" else none
    let secao := if df.cols.contains "NR_SECAO" then some "NR_SECAO" else none
    some ⟨vc, cand, party, zona, secao⟩

/-! ## `extrair_ano_uf_do_arquivo` (the File Classifier's name parser) -/

/-- Leftmost match of the regex `(19|20)\d{2}` over a character list
(the year search of `extrair_ano_uf_do_arquivo`). -/
def casaAno : List Char → Option String
  | [] => none
  | a :: resto =>
    match resto with
    | b :: c :: d :: _ =>
      if ((a == '1' && b == '9') || (a == '2' && b == '0')) && c.isDigit && d.isDigit
      then some (String.mk [a, b, c, d])
      else casaAno resto
    | _ => none

/-- The state-code alternation of the UF regex, in source order (`BRASIL`
before `BR`, then the 27 two-letter codes). -/
def listaUF : List String :=
  ["BRASIL", "BR", "AC", "AL", "AP", "AM", "BA", "CE", "DF", "ES", "GO", "MA",
   "MT", "MS", "MG", "PA", "PB", "PR", "PE", "PI", "RJ", "RN", "RS", "RO",
   "RR", "SC", "SP", "SE", "TO"]

/-- The tail requirement `(?:[_\.]|$)` after the state token. -/
def finalOk : List Char → Bool
  | [] => true
  | c :: _ => c == '_' || c == '.'

/-- Tries each alternation token at a fixed position, in order, requiring the
tail anchor to succeed (Python `re` backtracks to the next alternative when
the tail fails). -/
def tentaUFs : List String → List Char → Option String
  | [], _ => none
  | t :: ts, resto =>
    if temPrefixo t.toList resto && finalOk (resto.drop t.toList.length)
    then some t
    else tentaUFs ts resto

/-- Leftmost match of the UF regex
`_(BRASIL|BR|AC|...|TO)(?:[_\.]|$)` over a character list: the token must be
immediately preceded by `_` and followed by `_`, `.` or the end of the name. -/
def casaUF : List Char → Option String
  | [] => none
  | c :: resto =>
    if c == '_' then
      match tentaUFs listaUF resto with
      | some t => some t
      | none => casaUF resto
    else casaUF resto

/-- Embedding of `extrair_ano_uf_do_arquivo` (`ingestor.py` lines 69–96):
upper-cases the file name, then searches the year and the state code
independently. -/
def extrair_ano_uf (nome : String) : Option String × Option String :=
  let up := maiusculas nome
  (casaAno up.toList, casaUF up.toList)

/-! ## `ler_csv_flex`: strict parse, one lenient retry, else skip -/

/-- Outcome of one `pd.read_csv` attempt on a file: a parsed frame, a
`pandas.errors.ParserError` (malformed row structure), or any other
exception. -/
inductive ResultadoLeitura where
  | ok (df : Frame)
  | erroParser
  | erroOutro
deriving DecidableEq, Repr

/-- Whether a parse attempt produced a frame. -/
def ResultadoLeitura.deuCerto : ResultadoLeitura → Bool
  | .ok _ => true
  | _ => false

/-- A CSV file as the pipeline sees it: its name plus the outcome of the
strict parse and of the lenient (`engine="python"`, `on_bad_lines="skip"`)
parse.  The byte-level behaviour of `pd.read_csv` is represented by these two
outcomes. -/
structure Arquivo where
  nome : String
  leituraEstrita : ResultadoLeitura
  leituraFlex : ResultadoLeitura
deriving DecidableEq, Repr

/-- Embedding of `ler_csv_flex` (`ingestor.py` lines 99–134), instrumented
with the number of lenient parse attempts made.  A `ParserError` on the strict
attempt triggers exactly one lenient retry; any failure of the retry, and any
non-parser exception on the strict attempt, yields `none` (file skipped). -/
def ler_csv_flex_tr (a : Arquivo) : Option Frame × Nat :=
  match a.leituraEstrita with
  | .ok df => (some df, 0)
  | .erroParser =>
    match a.leituraFlex with
    | .ok df => (some df, 1)
    | _ => (none, 1)
  | .erroOutro => (none, 0)

/-- The result of `ler_csv_flex`: the frame, or `none` when the file is skipped. -/
def ler_csv_flex (a : Arquivo) : Option Frame :=
  (ler_csv_flex_tr a).1

/-! ## `processar_arquivo_votos`: projection into the `votos` table shape -/

/-- One row of the `votos` table (the `base_cols` dictionary of
`processar_arquivo_votos`). -/
structure LinhaVoto where
  arquivo_origem : String
  ano : Option String
  uf : Option String
  nr_turno : Option String
  cd_municipio : Option String
  nm_municipio : Option String
  cd_cargo : Option String
  ds_cargo : Option String
  nm_candidato : Option String
  nr_candidato : Option String
  sg_partido : Option String
  nr_zona : Option String
  nr_secao : Option String
  cd_local_votacao : Option String
  nm_local_votacao : Option String
  ds_local_votacao_endereco : Option String
  ds_sit_tot_turno : Option String
  votos : Int
deriving DecidableEq, Repr

/-- The polling-place column scan of `processar_arquivo_votos` (lines
202–214): first column whose upper-cased name contains one of the role's
markers. -/
def colunaLocal (df : Frame) (m1 m2 : String) : Option String :=
  df.cols.find? (fun c => contemTexto m1 (maiusculas c) || contemTexto m2 (maiusculas c))

/-- The address-column scan: `ENDERECO` together with a `LOCAL_VOT`/`LOC_VOT`
marker. -/
def colunaEndereco (df : Frame) : Option String :=
  df.cols.find? (fun c =>
    contemTexto "ENDERECO" (maiusculas c) &&
      (contemTexto "LOCAL_VOT" (maiusculas c) || contemTexto "LOC_VOT" (maiusculas c)))

/-- Builds one `votos` row from one (already sentinel-cleaned) source row.
The file-level scalars (`ano`, `uf`, the polling-place column choices) are
row-independent; they are recomputed here per row, which is semantically
identical to the source computing them once per frame. -/
def montaLinhaVoto (nomeArq : String) (df : Frame) (cm : Colunas) (r : Linha) : LinhaVoto :=
  let (anoNome, ufNome) := extrair_ano_uf nomeArq
  { arquivo_origem := nomeArq
    ano := anoNome.orElse (fun _ => primeiraCelula df "ANO_ELEICAO")
    uf := ufNome.orElse (fun _ => primeiraCelula df "SG_UF")
    nr_turno := seTem df "NR_TURNO" r
    cd_municipio := seTem df "CD_MUNICIPIO" r
    nm_municipio := seTem df "NM_MUNICIPIO" r
    cd_cargo := seTem df "CD_CARGO" r
    ds_cargo := seTem df "DS_CARGO" r
    nm_candidato := cm.cand.bind (fun c => celula r c)
    nr_candidato := seTem df "NR_CANDIDATO" r
    sg_partido := cm.party.bind (fun c => celula r c)
    nr_zona := cm.zona.bind (fun c => celula r c)
    nr_secao := cm.secao.bind (fun c => celula r c)
    cd_local_votacao := (colunaLocal df "CD_LOCAL_VOT" "NR_LOCAL_VOT").bind (fun c => celula r c)
    nm_local_votacao := (colunaLocal df "NM_LOCAL_VOT" "DS_LOCAL_VOT").bind (fun c => celula r c)
    ds_local_votacao_endereco := (colunaEndereco df).bind (fun c => celula r c)
    ds_sit_tot_turno := seTem df "DS_SIT_TOT_TURNO" r
    votos := paraNumero (celula r cm.vote) }

/-- The frame-level body of `processar_arquivo_votos` (lines 154–239):
sentinel cleaning, column detection (`none` aborts with "not a vote file"),
vote coercion, and the row-wise projection into `base_cols`.  No row is
filtered out. -/
def processar_votos_core (nomeArq : String) (df0 : Frame) : Option (List LinhaVoto) :=
  let df := limparFrame df0
  match detectar_colunas df with
  | none => none
  | some cm => some (df.rows.map (montaLinhaVoto nomeArq df cm))

/-- Embedding of `processar_arquivo_votos` (lines 141–239): read with
fallback, then project. -/
def processar_arquivo_votos (a : Arquivo) : Option (List LinhaVoto) :=
  (ler_csv_flex a).bind (processar_votos_core a.nome)

/-! ## `processar_detalhe_secao`: the `locais_secao` table -/

/-- One row of the `locais_secao` table. -/
structure LinhaLocal where
  arquivo_origem : String
  ano : Option String
  uf : Option String
  cd_municipio : Option String
  nm_municipio : Option String
  nr_zona : Option String
  nr_secao : Option String
  nr_local_votacao : Option String
  nm_local_votacao : Option String
  ds_local_votacao_endereco : Option String
deriving DecidableEq, Repr

/-- The frame-level body of `processar_detalhe_secao` (lines 261–294). -/
def processar_detalhe_core (nomeArq : String) (df0 : Frame) : List LinhaLocal :=
  let df := limparFrame df0
  let (anoNome, ufNome) := extrair_ano_uf nomeArq
  df.rows.map (fun r =>
    { arquivo_origem := nomeArq
      ano := anoNome.orElse (fun _ => primeiraCelula df "ANO_ELEICAO")
      uf := ufNome.orElse (fun _ => primeiraCelula df "SG_UF")
      cd_municipio := seTem df "CD_MUNICIPIO" r
      nm_municipio := seTem df "NM_MUNICIPIO" r
      nr_zona := seTem df "NR_ZONA" r
      nr_secao := seTem df "NR_SECAO" r
      nr_local_votacao := seTem df "NR_LOCAL_VOTACAO" r
      nm_local_votacao := seTem df "NM_LOCAL_VOTACAO" r
      ds_local_votacao_endereco := seTem df "DS_LOCAL_VOTACAO_ENDERECO" r })

/-- Embedding of `processar_detalhe_secao` (lines 246–294). -/
def processar_detalhe_secao (a : Arquivo) : Option (List LinhaLocal) :=
  (ler_csv_flex a).map (processar_detalhe_core a.nome)

/-! ## Deduplication: `DataFrame.drop_duplicates(subset=...)` -/

/-- Embedding of `drop_duplicates` with pandas' default `keep="first"`: a row is kept when
no earlier row (nor the `vistos` accumulator) carries the same key. -/
def dedupAux {α β : Type} [DecidableEq β] (k : α → β) (vistos : List β) : List α → List α
  | [] => []
  | x :: xs =>
    if k x ∈ vistos then dedupAux k vistos xs
    else x :: dedupAux k (k x :: vistos) xs

/-- Deduplication by key, first occurrence wins (pandas default). -/
def dedupPrimeiro {α β : Type} [DecidableEq β] (k : α → β) (xs : List α) : List α :=
  dedupAux k [] xs

/-! ## `processar_candidatos_meta`: the `candidatos_meta` table -/

/-- One row of the `candidatos_meta` table. -/
structure LinhaCandMeta where
  arquivo_origem : String
  ano : Option String
  uf : Option String
  cd_cargo : Option String
  nr_turno : Option String
  cd_municipio : Option String
  nm_municipio : Option String
  nr_candidato : Option String
  nm_candidato : Option String
  sg_partido : Option String
  nm_partido : Option String
  ds_sit_tot_turno : Option String
  ds_situacao_candidatura : Option String
deriving DecidableEq, Repr

/-- The composite deduplication key of `candidatos_meta`
(`["ano", "uf", "cd_cargo", "nr_turno", "nr_candidato"]`; every one of these
columns is always present in the projected frame, so the subset filter of the
source keeps the full list). -/
def chaveCand (r : LinhaCandMeta) :
    Option String × Option String × Option String × Option String × Option String :=
  (r.ano, r.uf, r.cd_cargo, r.nr_turno, r.nr_candidato)

/-- The projection of one candidate-metadata file into rows, before
deduplication (lines 320–369).  The candidate name prefers
`NM_URNA_CANDIDATO` over `NM_CANDIDATO`. -/
def projetaCandidatos (nomeArq : String) (df0 : Frame) : List LinhaCandMeta :=
  let df := limparFrame df0
  let (anoNome, ufNome) := extrair_ano_uf nomeArq
  df.rows.map (fun r =>
    { arquivo_origem := nomeArq
      ano := anoNome.orElse (fun _ => primeiraCelula df "ANO_ELEICAO")
      uf := ufNome.orElse (fun _ => primeiraCelula df "SG_UF")
      cd_cargo := seTem df "CD_CARGO" r
      nr_turno := seTem df "NR_TURNO" r
      cd_municipio := seTem df "CD_MUNICIPIO" r
      nm_municipio := seTem df "NM_MUNICIPIO" r
      nr_candidato := seTem df "NR_CANDIDATO" r
      nm_candidato :=
        if df.cols.contains "NM_URNA_CANDIDATO" then celula r "NM_URNA_CANDIDATO"
        else if df.cols.contains "NM_CANDIDATO" then celula r "NM_CANDIDATO"
        else none
      sg_partido := seTem df "SG_PARTIDO" r
      nm_partido := seTem df "NM_PARTIDO" r
      ds_sit_tot_turno := seTem df "DS_SIT_TOT_TURNO" r
      ds_situacao_candidatura := seTem df "DS_SITUACAO_CANDIDATURA" r })

/-- The frame-level body of `processar_candidatos_meta` (lines 320–381):
projection followed by `drop_duplicates` on the composite key. -/
def processar_candidatos_core (nomeArq : String) (df0 : Frame) : List LinhaCandMeta :=
  dedupPrimeiro chaveCand (projetaCandidatos nomeArq df0)

/-- Embedding of `processar_candidatos_meta` (lines 301–381). -/
def processar_candidatos_meta (a : Arquivo) : Option (List LinhaCandMeta) :=
  (ler_csv_flex a).map (processar_candidatos_core a.nome)

/-! ## `processar_partidos_meta`: the `partidos_meta` table -/

/-- One row of the `partidos_meta` table.  `qt_total_votos_leg_validos` is
`pd.to_numeric(..., errors="coerce")` with no `fillna`, hence optional. -/
structure LinhaPartMeta where
  arquivo_origem : String
  ano : Option String
  uf : Option String
  cd_cargo : Option String
  nr_turno : Option String
  cd_municipio : Option String
  nm_municipio : Option String
  sg_partido : Option String
  nm_partido : Option String
  ds_sit_tot_turno : Option String
  qt_total_votos_leg_validos : Option Int
deriving DecidableEq, Repr

/-- The composite deduplication key of `partidos_meta`. -/
def chavePart (r : LinhaPartMeta) :
    Option String × Option String × Option String × Option String × Option String ×
      Option String :=
  (r.ano, r.uf, r.cd_cargo, r.nr_turno, r.cd_municipio, r.sg_partido)

/-- The frame-level body of `processar_partidos_meta` (lines 405–454). -/
def processar_partidos_core (nomeArq : String) (df0 : Frame) : List LinhaPartMeta :=
  let df := limparFrame df0
  let (anoNome, ufNome) := extrair_ano_uf nomeArq
  dedupPrimeiro chavePart (df.rows.map (fun r =>
    { arquivo_origem := nomeArq
      ano := anoNome.orElse (fun _ => primeiraCelula df "ANO_ELEICAO")
      uf := ufNome.orElse (fun _ => primeiraCelula df "SG_UF")
      cd_cargo := seTem df "CD_CARGO" r
      nr_turno := seTem df "NR_TURNO" r
      cd_municipio := seTem df "CD_MUNICIPIO" r
      nm_municipio := seTem df "NM_MUNICIPIO" r
      sg_partido := seTem df "SG_PARTIDO" r
      nm_partido := seTem df "NM_PARTIDO" r
      ds_sit_tot_turno := seTem df "DS_SIT_TOT_TURNO" r
      qt_total_votos_leg_validos :=
        if df.cols.contains "QT_TOTAL_VOTOS_LEG_VALIDOS" then
          (celula r "QT_TOTAL_VOTOS_LEG_VALIDOS").bind paraInteiro
        else none }))

/-- Embedding of `processar_partidos_meta` (lines 388–454). -/
def processar_partidos_meta (a : Arquivo) : Option (List LinhaPartMeta) :=
  (ler_csv_flex a).map (processar_partidos_core a.nome)

/-! ## `ingest_all`: classification loop and table state -/

/-- The four tables of the SQLite sink.  `none` models an absent (dropped)
table; `to_sql(..., if_exists="append")` creates it on first insert.  The
index-creation calls at the end of `ingest_all` do not change table contents
and are not modelled. -/
structure BD where
  votos : Option (List LinhaVoto)
  locais_secao : Option (List LinhaLocal)
  candidatos_meta : Option (List LinhaCandMeta)
  partidos_meta : Option (List LinhaPartMeta)
deriving DecidableEq, Repr

/-- The state with all four tables dropped (after the `DROP TABLE IF EXISTS`
block of lines 552–558). -/
def bdVazio : BD := ⟨none, none, none, none⟩

/-- Embedding of `df.to_sql(name, conn, if_exists="append")`: creates the table when
absent, then appends the rows. -/
def anexaTabela {α : Type} (t : Option (List α)) (xs : List α) : Option (List α) :=
  some (t.getD [] ++ xs)

/-- The per-file body of the `ingest_all` loop (lines 578–627): classify by
name markers, process, and append when the result is present and non-empty.
The accumulated `Nat` is `total_votos`, the only total `ingest_all` returns. -/
def ingerirArquivo (a : Arquivo) (st : BD × Nat) : BD × Nat :=
  let (bd, tot) := st
  let nomeU := maiusculas a.nome
  if contemTexto "DETALHE_VOTACAO_SECAO" nomeU then
    match processar_detalhe_secao a with
    | some ls =>
      if ls.isEmpty then (bd, tot)
      else ({ bd with locais_secao := anexaTabela bd.locais_secao ls }, tot)
    | none => (bd, tot)
  else if contemTexto "CANDIDATO" nomeU && contemTexto "MUNZONA" nomeU then
    match processar_candidatos_meta a with
    | some cs =>
      if cs.isEmpty then (bd, tot)
      else ({ bd with candidatos_meta := anexaTabela bd.candidatos_meta cs }, tot)
    | none => (bd, tot)
  else if contemTexto "PARTIDO" nomeU && contemTexto "MUNZONA" nomeU then
    match processar_partidos_meta a with
    | some ps =>
      if ps.isEmpty then (bd, tot)
      else ({ bd with partidos_meta := anexaTabela bd.partidos_meta ps }, tot)
    | none => (bd, tot)
  else
    match processar_arquivo_votos a with
    | some vs =>
      if vs.isEmpty then (bd, tot)
      else ({ bd with votos := anexaTabela bd.votos vs }, tot + vs.length)
    | none => (bd, tot)

/-- Folds the per-file step over the (sorted) file listing. -/
def ingerirLista : List Arquivo → BD × Nat → BD × Nat
  | [], st => st
  | a :: resto, st => ingerirLista resto (ingerirArquivo a st)

/-- Modelled from the spec: the global data directory (`DATA_DIR`, the
deployment volume) that `ingest_all` walks.  `ingestor.py` references
`DATA_DIR` at line 565 without defining it in the module; the spec's
orchestrator contract (§4.4, §9 "global data directory") describes it as the
configured source directory, modelled here as an existence flag plus the
sorted `*.csv` listing. -/
structure Diretorio where
  existe : Bool
  arquivos : List Arquivo
deriving DecidableEq, Repr

/-- Embedding of `ingest_all` (lines 539–640).  With `clear_table=True` the
four tables are dropped (and later recreated on first insert) *before* the
data directory is examined; a missing directory or an empty listing returns
`0` with the tables left as the clear step left them.  Returns
`(total_votos, final table state)`. -/
def ingest_all (clear_table : Bool) (dir : Diretorio) (bd : BD) : Nat × BD :=
  let bd1 := if clear_table then bdVazio else bd
  if !dir.existe then (0, bd1)
  else if dir.arquivos.isEmpty then (0, bd1)
  else
    let (bd2, tot) := ingerirLista dir.arquivos (bd1, 0)
    (tot, bd2)

/-- Aggregate vote sum per (year, state, office) over the `votos` table,
the query-time reducer the spec's idempotence property speaks about. -/
def agregaVotos (bd : BD) (ano uf cargo : Option String) : Int :=
  ((bd.votos.getD []).filter
      (fun r => decide (r.ano = ano ∧ r.uf = uf ∧ r.cd_cargo = cargo))).foldl
    (fun s r => s + r.votos) 0

/-! ## Shared lemmas -/

/-- Sentinel cleaning does not change the column list, so column detection is
insensitive to it. -/
lemma detectar_limpar (df : Frame) :
    detectar_colunas (limparFrame df) = detectar_colunas df := rfl

/-- The vote-column loop of `detectar_colunas` picks the first alias present. -/
lemma escolheColuna_eq_find (l cols : List String) :
    escolheColuna l cols = l.find? (fun c => cols.contains c) := by
  induction l with
  | nil => rfl
  | cons c cs ih =>
    by_cases h : cols.contains c
    · simp only [escolheColuna]
      rw [if_pos h, List.find?_cons_of_pos _ h]
    · simp only [escolheColuna]
      rw [if_neg h, ih, List.find?_cons_of_neg _ h]

/-- Cell access commutes with per-row sentinel cleaning. -/
lemma celula_limpar (r : Linha) (c : String) :
    celula (limparLinha r) c = limparSentinela (celula r c) := by
  induction r with
  | nil => rfl
  | cons p resto ih =>
    by_cases h : p.1 == c
    · simp [celula, limparLinha, List.find?_cons_of_pos, h]
    · have h' : (p.1 == c) = false := by simpa using h
      simpa [celula, limparLinha, List.find?_cons_of_neg, h'] using ih

/-- When column detection succeeds, `processar_votos_core` is the row-wise
projection of the sentinel-cleaned frame: no row is dropped. -/
lemma votos_core_eq (nomeArq : String) (df : Frame) (cm : Colunas)
    (hcm : detectar_colunas df = some cm) :
    processar_votos_core nomeArq df =
      some ((limparFrame df).rows.map (montaLinhaVoto nomeArq (limparFrame df) cm)) := by
  simp only [processar_votos_core, detectar_limpar, hcm]

/-- The vote count of a projected row is the coercion of the sentinel-cleaned
source cell in the resolved vote column. -/
lemma montaLinhaVoto_votos (nomeArq : String) (df : Frame) (cm : Colunas) (r : Linha) :
    (montaLinhaVoto nomeArq df cm r).votos = paraNumero (celula r cm.vote) := rfl

/-- Every row surviving `dedupAux` carries a key outside the accumulator and
is the first row of the input with its key. -/
lemma dedupAux_acha {α β : Type} [DecidableEq β] (k : α → β) :
    ∀ (vistos : List β) (xs : List α) (r : α), r ∈ dedupAux k vistos xs →
      k r ∉ vistos ∧ xs.find? (fun y => decide (k y = k r)) = some r := by
  intro vistos xs
  induction xs generalizing vistos with
  | nil => intro r h; simp [dedupAux] at h
  | cons x resto ih =>
    intro r hr
    by_cases hx : k x ∈ vistos
    · have hr' : r ∈ dedupAux k vistos resto := by simpa [dedupAux, hx] using hr
      obtain ⟨h1, h2⟩ := ih vistos r hr'
      have hne : ¬ (k x = k r) := fun he => h1 (he ▸ hx)
      refine ⟨h1, ?_⟩
      rw [List.find?_cons_of_neg _ (by simpa using hne)]
      exact h2
    · have hr' : r ∈ x :: dedupAux k (k x :: vistos) resto := by
        simpa [dedupAux, hx] using hr
      rcases List.mem_cons.mp hr' with h | h
      · subst h
        exact ⟨hx, by rw [List.find?_cons_of_pos _ (by simp)]⟩
      · obtain ⟨h1, h2⟩ := ih (k x :: vistos) r h
        have hxr : ¬ (k x = k r) := fun he => h1 (by simp [he])
        refine ⟨fun hv => h1 (by simp [hv]), ?_⟩
        rw [List.find?_cons_of_neg _ (by simpa using hxr)]
        exact h2

/-- Every input row whose key is outside the accumulator is represented in
the output of `dedupAux` by a row with the same key. -/
lemma dedupAux_cobre {α β : Type} [DecidableEq β] (k : α → β) :
    ∀ (vistos : List β) (xs : List α) (y : α), y ∈ xs → k y ∉ vistos →
      ∃ r ∈ dedupAux k vistos xs, k r = k y := by
  intro vistos xs
  induction xs generalizing vistos with
  | nil => intro y hy _; simp at hy
  | cons x resto ih =>
    intro y hy hv
    by_cases hx : k x ∈ vistos
    · rcases List.mem_cons.mp hy with h | h
      · subst h; exact absurd hx hv
      · obtain ⟨r, hr, he⟩ := ih vistos y h hv
        exact ⟨r, by simpa [dedupAux, hx] using hr, he⟩
    · by_cases hk : k y = k x
      · refine ⟨x, ?_, hk.symm⟩
        simp [dedupAux, hx]
      · rcases List.mem_cons.mp hy with h | h
        · subst h; exact absurd rfl hk
        · obtain ⟨r, hr, he⟩ := ih (k x :: vistos) y h (by simp [hk, hv])
          exact ⟨r, by simp [dedupAux, hx, hr], he⟩

/-- The keys of the output of `dedupAux` are pairwise distinct. -/
lemma dedupAux_sem_repete {α β : Type} [DecidableEq β] (k : α → β) :
    ∀ (vistos : List β) (xs : List α),
      (dedupAux k vistos xs).Pairwise (fun a b => k a ≠ k b) := by
  intro vistos xs
  induction xs generalizing vistos with
  | nil => simp [dedupAux]
  | cons x resto ih =>
    by_cases hx : k x ∈ vistos
    · simpa [dedupAux, hx] using ih vistos
    · have he : dedupAux k vistos (x :: resto) = x :: dedupAux k (k x :: vistos) resto := by
        simp [dedupAux, hx]
      rw [he]
      refine List.Pairwise.cons ?_ (ih (k x :: vistos))
      intro b hb hxb
      exact (dedupAux_acha k (k x :: vistos) resto b hb).1 (by simp [hxb])

/-- An unparseable cell coerces to `0` even when it is not a sentinel token. -/
lemma paraNumero_limpar_garbled (s : String) (h : paraInteiro s = none) :
    paraNumero (limparSentinela (some s)) = 0 := by
  simp only [limparSentinela]
  by_cases hs : (s == "#NULO" || s == "#NE") = true
  · rw [if_pos hs]; rfl
  · rw [if_neg hs]; simp [paraNumero, h]

/-- When every parseable value of a cell is non-negative, the coerced value is
non-negative. -/
lemma paraNumero_limpar_nonneg (cell : Option String)
    (h : ∀ s n, cell = some s → paraInteiro s = some n → 0 ≤ n) :
    0 ≤ paraNumero (limparSentinela cell) := by
  cases cell with
  | none => simp [limparSentinela, paraNumero]
  | some s =>
    simp only [limparSentinela]
    by_cases hs : (s == "#NULO" || s == "#NE") = true
    · rw [if_pos hs]; simp [paraNumero]
    · rw [if_neg hs]
      simp only [paraNumero]
      cases hp : paraInteiro s with
      | none => simp
      | some n => simpa [hp] using h s n rfl hp

/-- The projected `votos` output has exactly one row per source row. -/
lemma votos_core_comprimento (nomeArq : String) (df : Frame) (cm : Colunas)
    (out : List LinhaVoto) (hcm : detectar_colunas df = some cm)
    (hout : processar_votos_core nomeArq df = some out) :
    out.length = df.rows.length := by
  rw [votos_core_eq nomeArq df cm hcm] at hout
  obtain rfl := (Option.some.inj hout).symm
  simp [limparFrame]

/-- Index-wise characterization of the vote count of each projected row. -/
lemma votos_core_indice (nomeArq : String) (df : Frame) (cm : Colunas)
    (out : List LinhaVoto) (i : Nat) (r : LinhaVoto) (row : Linha)
    (hcm : detectar_colunas df = some cm)
    (hout : processar_votos_core nomeArq df = some out)
    (hr : out[i]? = some r) (hrow : df.rows[i]? = some row) :
    r.votos = paraNumero (limparSentinela (celula row cm.vote)) := by
  rw [votos_core_eq nomeArq df cm hcm] at hout
  obtain rfl := (Option.some.inj hout).symm
  rw [show (limparFrame df).rows = df.rows.map limparLinha from rfl, List.map_map,
    List.getElem?_map, hrow, Option.map_some'] at hr
  obtain rfl := (Option.some.inj hr).symm
  show (montaLinhaVoto nomeArq (limparFrame df) cm (limparLinha row)).votos = _
  rw [montaLinhaVoto_votos, celula_limpar]

/-- Every projected `votos` row arises from one source row. -/
lemma votos_core_membro (nomeArq : String) (df : Frame) (cm : Colunas)
    (out : List LinhaVoto) (r : LinhaVoto) (hcm : detectar_colunas df = some cm)
    (hout : processar_votos_core nomeArq df = some out) (hr : r ∈ out) :
    ∃ row ∈ df.rows, r = montaLinhaVoto nomeArq (limparFrame df) cm (limparLinha row) := by
  rw [votos_core_eq nomeArq df cm hcm] at hout
  obtain rfl := (Option.some.inj hout).symm
  rw [show (limparFrame df).rows = df.rows.map limparLinha from rfl, List.map_map] at hr
  obtain ⟨row, hrow, heq⟩ := List.mem_map.mp hr
  exact ⟨row, hrow, by simpa using heq.symm⟩

/-- A file whose read is skipped contributes nothing to any table and leaves
the running total unchanged. -/
lemma ingerirArquivo_sem_leitura (a : Arquivo) (st : BD × Nat)
    (h : ler_csv_flex a = none) : ingerirArquivo a st = st := by
  rcases st with ⟨bd, tot⟩
  have h1 : processar_detalhe_secao a = none := by simp [processar_detalhe_secao, h]
  have h2 : processar_candidatos_meta a = none := by simp [processar_candidatos_meta, h]
  have h3 : processar_partidos_meta a = none := by simp [processar_partidos_meta, h]
  have h4 : processar_arquivo_votos a = none := by simp [processar_arquivo_votos, h]
  simp [ingerirArquivo, h1, h2, h3, h4]

end Ingestor

open Ingestor

/-! ## Concrete inputs used by the counterexamples and witnesses -/

/-- A candidate-metadata file with two rows sharing the deduplication key
(year, state, office, round, candidate number) but with different statuses:
`SUPLENTE` first, `ELEITO` second. -/
def quadroCand : Frame :=
  ⟨["CD_CARGO", "NR_TURNO", "NR_CANDIDATO", "DS_SIT_TOT_TURNO"],
   [[("CD_CARGO", some "13"), ("NR_TURNO", some "1"), ("NR_CANDIDATO", some "45"),
     ("DS_SIT_TOT_TURNO", some "SUPLENTE")],
    [("CD_CARGO", some "13"), ("NR_TURNO", some "1"), ("NR_CANDIDATO", some "45"),
     ("DS_SIT_TOT_TURNO", some "ELEITO")]]⟩

/-- The projection of the first (`SUPLENTE`) row of `quadroCand`. -/
def linhaSobrevivente : LinhaCandMeta :=
  ⟨"votacao_candidato_munzona_2022_SP.csv", some "2022", some "SP", some "13", some "1",
   none, none, some "45", none, none, none, some "SUPLENTE", none⟩

/-- A vote file whose single row has no payee identifier (the candidate-name
cell is the `#NULO` sentinel and there is no candidate-number column). -/
def quadroSemPagador : Frame :=
  ⟨["QT_VOTOS", "NM_CANDIDATO"],
   [[("QT_VOTOS", some "7"), ("NM_CANDIDATO", some "#NULO")]]⟩

/-- A vote file whose single vote-count cell is a negative numeric string. -/
def quadroNegativo : Frame :=
  ⟨["QT_VOTOS"], [[("QT_VOTOS", some "-5")]]⟩

/-- A vote file exercising the two sentinel tokens and non-numeric garbage in
the vote-count column. -/
def quadroSentinela : Frame :=
  ⟨["QT_VOTOS"],
   [[("QT_VOTOS", some "#NULO")], [("QT_VOTOS", some "#NE")], [("QT_VOTOS", some "abc")]]⟩

/-- The row `processar_votos_core` produces for each row of `quadroSentinela`
under the file name `votacao_secao_2024_AC.csv`: every optional column is
absent and the coerced vote count is `0`. -/
def linhaSent : LinhaVoto :=
  ⟨"votacao_secao_2024_AC.csv", some "2024", some "AC", none, none, none, none, none,
   none, none, none, none, none, none, none, none, none, 0⟩

/-- The output of `processar_votos_core` on `quadroSentinela`. -/
def saidaSent : List LinhaVoto := [linhaSent, linhaSent, linhaSent]

/-- A well-formed vote file whose single vote cell is a non-negative numeral. -/
def quadroBom : Frame :=
  ⟨["QT_VOTOS"], [[("QT_VOTOS", some "7")]]⟩

/-- The output of `processar_votos_core` on `quadroBom`. -/
def saidaBoa : List LinhaVoto :=
  [⟨"votacao_secao_2024_SP.csv", some "2024", some "SP", none, none, none, none, none,
    none, none, none, none, none, none, none, none, none, 7⟩]

/-- A frame with two vote-count aliases present (the first in priority order
must win) and one with none. -/
def quadroPrioridade : Frame := ⟨["NM_X", "QT_VOTOS", "QT_VOTOS_VALIDOS"], []⟩

/-- A frame with no vote-count alias at all. -/
def quadroSemVotos : Frame := ⟨["NM_CANDIDATO", "ANO_ELEICAO"], []⟩

/-- A curated metadata row present in the sink before a reload. -/
def linhaMetaCurada : LinhaCandMeta :=
  ⟨"curado.csv", some "2020", some "SP", none, none, none, none, some "11", none,
   none, none, some "ELEITO", none⟩

/-- A sink state whose `candidatos_meta` table is populated. -/
def bdComMeta : BD := ⟨none, none, some [linhaMetaCurada], none⟩

/-- A file that fails the strict parse with a `ParserError` and fails the
lenient retry as well. -/
def arquivoRuim : Arquivo := ⟨"votacao_secao_2024_AC.csv", .erroParser, .erroParser⟩

/-! ## Claim C1 -/

/-- C1 counterexample: calling `ingest_all` with `clear_table = true` does not
preserve the contents of `candidatos_meta` — the table is dropped along with
the derived tables (the `DROP TABLE IF EXISTS` block of lines 552–558 names
all four tables). -/
theorem ingest_all_clear_descarta_candidatos_meta :
    (ingest_all true ⟨true, []⟩ bdComMeta).2.candidatos_meta ≠ bdComMeta.candidatos_meta := by
  decide

/-- C1 amended: for every call to `ingest_all` with `clear_table = true`, all
four tables (`votos`, `locais_secao`, `candidatos_meta`, `partidos_meta`) are
dropped and recreated before reingestion: the result never depends on the
prior contents of any table, and when nothing is reingested all four tables
are left dropped. -/
theorem ingest_all_clear_reconstroi_tudo (dir : Diretorio) (bd : BD) :
    ingest_all true dir bd = ingest_all true dir bdVazio ∧
    (ingest_all true ⟨dir.existe, []⟩ bd).2 = bdVazio := by
  refine ⟨rfl, ?_⟩
  rcases dir with ⟨e, fs⟩
  cases e <;> rfl

/-! ## Claim C2 -/

/-- C2 counterexample: for a file with two rows A (status `SUPLENTE`) then B
(status `ELEITO`) on the same composite key, the surviving row is A, not B:
`drop_duplicates` is called with pandas' default `keep="first"`. -/
theorem dedup_sobrevivente_nao_eh_ultimo :
    (processar_candidatos_core "votacao_candidato_munzona_2022_SP.csv" quadroCand).map
        (fun r => r.ds_sit_tot_turno) = [some "SUPLENTE"] ∧
      some "SUPLENTE" ≠ (some "ELEITO" : Option String) :=
  ⟨by decide, by decide⟩

/-- C2 amended: per-file deduplication of `candidatos_meta` keeps exactly one
row per composite key (year, state, office, round, candidate number), and it
is the FIRST occurrence in file order: every surviving row is the first
projected row with its key, surviving keys are pairwise distinct, and every
projected key is represented. -/
theorem candidatos_meta_dedup_primeira_ocorrencia (nomeArq : String) (df : Frame) :
    (∀ r ∈ processar_candidatos_core nomeArq df,
      (projetaCandidatos nomeArq df).find?
        (fun y => decide (chaveCand y = chaveCand r)) = some r) ∧
    (processar_candidatos_core nomeArq df).Pairwise (fun a b => chaveCand a ≠ chaveCand b) ∧
    (∀ y ∈ projetaCandidatos nomeArq df,
      ∃ r ∈ processar_candidatos_core nomeArq df, chaveCand r = chaveCand y) := by
  refine ⟨?_, ?_, ?_⟩
  · intro r hr
    exact (dedupAux_acha chaveCand [] (projetaCandidatos nomeArq df) r hr).2
  · exact dedupAux_sem_repete chaveCand [] _
  · intro y hy
    exact dedupAux_cobre chaveCand [] _ y hy (by simp)

/-- C2 witness: the surviving row of `quadroCand` is the first (`SUPLENTE`)
occurrence of its key. -/
theorem candidatos_meta_dedup_primeira_ocorrencia_teste :
    linhaSobrevivente ∈
        processar_candidatos_core "votacao_candidato_munzona_2022_SP.csv" quadroCand ∧
    (projetaCandidatos "votacao_candidato_munzona_2022_SP.csv" quadroCand).find?
        (fun y => decide (chaveCand y = chaveCand linhaSobrevivente)) =
      some linhaSobrevivente :=
  ⟨by decide,
   (candidatos_meta_dedup_primeira_ocorrencia "votacao_candidato_munzona_2022_SP.csv"
       quadroCand).1 linhaSobrevivente (by decide)⟩

/-! ## Claim C3 -/

/-- C3: running `ingest_all` with the clear step twice over an unchanged input
directory yields identical results — the second run returns the same total
and the same table contents as the first, and in particular identical
aggregate vote sums per (year, state, office) over `votos`. -/
theorem ingest_all_idempotente (dir : Diretorio) (bd : BD) :
    ingest_all true dir (ingest_all true dir bd).2 = ingest_all true dir bd ∧
    ∀ a u c, agregaVotos (ingest_all true dir (ingest_all true dir bd).2).2 a u c =
        agregaVotos (ingest_all true dir bd).2 a u c := by
  have h : ingest_all true dir (ingest_all true dir bd).2 = ingest_all true dir bd := rfl
  exact ⟨h, fun a u c => by rw [h]⟩

/-! ## Claim C4 -/

/-- C4 counterexample: a `SectionVote` row with no payee identifier (candidate
name cell is the `#NULO` sentinel, no candidate-number column) is NOT dropped:
it is emitted with null payee fields and its vote count. -/
theorem linha_sem_candidato_emitida :
    (processar_votos_core "votacao_secao_2024_SP.csv" quadroSemPagador).map
        (List.map (fun r => (r.nm_candidato, r.nr_candidato, r.votos))) =
      some [(none, none, (7 : Int))] := by
  decide

/-- C4 amended: the transformation for target `SectionVote` drops no rows at
all — every source row is emitted (rows lacking a payee identifier included,
with null payee fields), and a row with a garbled vote-count cell is emitted
with vote count `0`. -/
theorem processar_votos_nao_descarta_linhas (nomeArq : String) (df : Frame) (cm : Colunas)
    (hcm : detectar_colunas df = some cm) :
    ∃ out : List LinhaVoto, processar_votos_core nomeArq df = some out ∧
      out.length = df.rows.length ∧
      (∀ (i : Nat) (r : LinhaVoto) (row : Linha), out[i]? = some r →
        df.rows[i]? = some row →
        r.votos = paraNumero (limparSentinela (celula row cm.vote))) ∧
      (∀ (i : Nat) (r : LinhaVoto) (row : Linha) (s : String), out[i]? = some r →
        df.rows[i]? = some row →
        celula row cm.vote = some s → paraInteiro s = none → r.votos = 0) := by
  have hout := votos_core_eq nomeArq df cm hcm
  refine ⟨_, hout, votos_core_comprimento nomeArq df cm _ hcm hout, ?_, ?_⟩
  · intro i r row hr hrow
    exact votos_core_indice nomeArq df cm _ i r row hcm hout hr hrow
  · intro i r row s hr hrow hcell hbad
    rw [votos_core_indice nomeArq df cm _ i r row hcm hout hr hrow, hcell]
    exact paraNumero_limpar_garbled s hbad

/-- C4 witness: on `quadroSemPagador` the projection emits its single
(payee-less) row. -/
theorem processar_votos_nao_descarta_linhas_teste :
    detectar_colunas quadroSemPagador =
        some ⟨"QT_VOTOS", some "NM_CANDIDATO", none, none, none⟩ ∧
    (∃ out : List LinhaVoto,
      processar_votos_core "votacao_secao_2024_SP.csv" quadroSemPagador = some out ∧
      out.length = quadroSemPagador.rows.length ∧
      (∀ (i : Nat) (r : LinhaVoto) (row : Linha), out[i]? = some r →
        quadroSemPagador.rows[i]? = some row →
        r.votos = paraNumero (limparSentinela (celula row
          (Colunas.mk "QT_VOTOS" (some "NM_CANDIDATO") none none none).vote))) ∧
      (∀ (i : Nat) (r : LinhaVoto) (row : Linha) (s : String), out[i]? = some r →
        quadroSemPagador.rows[i]? = some row →
        celula row (Colunas.mk "QT_VOTOS" (some "NM_CANDIDATO") none none none).vote = some s →
        paraInteiro s = none → r.votos = 0)) :=
  ⟨by decide,
   processar_votos_nao_descarta_linhas "votacao_secao_2024_SP.csv" quadroSemPagador
     ⟨"QT_VOTOS", some "NM_CANDIDATO", none, none, none⟩ (by decide)⟩

/-! ## Claim C5 -/

/-- C5: the Column Resolver selects the first vote-count alias present in the
fixed priority order `QT_VOTOS_NOMINAIS, QT_VOTOS_NOMINAIS_VALIDOS, QT_VOTOS,
QT_VOTOS_VALIDOS`; when none is present it returns `none` rather than
raising, and the caller then classifies the file as not a vote file
(`processar_votos_core` yields `none`). -/
theorem detectar_colunas_prioridade (df : Frame) :
    ((∀ c ∈ colunasVotoPrioridade, df.cols.contains c = false) →
      detectar_colunas df = none) ∧
    (∀ c : String, colunasVotoPrioridade.find? (fun a => df.cols.contains a) = some c →
      ∃ m : Colunas, detectar_colunas df = some m ∧ m.vote = c) ∧
    (∀ nomeArq : String, detectar_colunas df = none →
      processar_votos_core nomeArq df = none) := by
  refine ⟨?_, ?_, ?_⟩
  · intro h
    have he : escolheColuna colunasVotoPrioridade df.cols = none := by
      rw [escolheColuna_eq_find, List.find?_eq_none]
      intro c hc
      simpa using h c hc
    simp [detectar_colunas, he]
  · intro c hc
    have he : escolheColuna colunasVotoPrioridade df.cols = some c := by
      rw [escolheColuna_eq_find]; exact hc
    simp only [detectar_colunas, he]
    exact ⟨_, rfl, rfl⟩
  · intro nomeArq h
    simp only [processar_votos_core, detectar_limpar, h]

/-- C5 witness: with both `QT_VOTOS` and `QT_VOTOS_VALIDOS` present the first
in priority order wins; with no alias present detection fails and the file is
not treated as a vote file. -/
theorem detectar_colunas_prioridade_teste :
    colunasVotoPrioridade.find? (fun a => quadroPrioridade.cols.contains a) =
        some "QT_VOTOS" ∧
    (∃ m : Colunas, detectar_colunas quadroPrioridade = some m ∧ m.vote = "QT_VOTOS") ∧
    (∀ c ∈ colunasVotoPrioridade, quadroSemVotos.cols.contains c = false) ∧
    detectar_colunas quadroSemVotos = none ∧
    processar_votos_core "arquivo.csv" quadroSemVotos = none :=
  ⟨by decide,
   (detectar_colunas_prioridade quadroPrioridade).2.1 "QT_VOTOS" (by decide),
   by decide,
   (detectar_colunas_prioridade quadroSemVotos).1 (by decide),
   (detectar_colunas_prioridade quadroSemVotos).2.2 "arquivo.csv"
     ((detectar_colunas_prioridade quadroSemVotos).1 (by decide))⟩

/-! ## Claim C6 -/

/-- C6: for file names of the shape `PREFIX_YYYY_UF[_suffix].csv` the
classifier extracts the year (first `(19|20)\d{2}` match in the upper-cased
name) and the state (2-letter code preceded by `_` and followed by `_`, `.`
or end of name) independently of the suffix being absent, numeric (`_9`) or a
part marker (`_PARTE2`); a state token not preceded by `_`, or not followed
by `_`/`.`/end, is not extracted. -/
theorem extrair_ano_uf_sufixos :
    (∀ s ∈ (["", "_9", "_PARTE2"] : List String),
      extrair_ano_uf ("votacao_candidato_munzona_2018_SP" ++ s ++ ".csv") =
          (some "2018", some "SP") ∧
      extrair_ano_uf ("votacao_candidato_munzona_2018_PB" ++ s ++ ".csv") =
          (some "2018", some "PB") ∧
      extrair_ano_uf ("detalhe_votacao_secao_2022_MG" ++ s ++ ".csv") =
          (some "2022", some "MG") ∧
      extrair_ano_uf ("votacao_secao_2024_AC" ++ s ++ ".csv") =
          (some "2024", some "AC")) ∧
    extrair_ano_uf "votacao_secao_2024SP.csv" = (some "2024", none) ∧
    extrair_ano_uf "votacao_2024_SPX.csv" = (some "2024", none) := by
  refine ⟨?_, by decide, by decide⟩
  intro s hs
  fin_cases hs <;> exact ⟨by decide, by decide, by decide, by decide⟩

/-- C6 witness: the `_PARTE2` part marker does not disturb extraction. -/
theorem extrair_ano_uf_sufixos_teste :
    ("_PARTE2" ∈ (["", "_9", "_PARTE2"] : List String)) ∧
    extrair_ano_uf ("votacao_candidato_munzona_2018_SP" ++ "_PARTE2" ++ ".csv") =
      (some "2018", some "SP") :=
  ⟨by decide, (extrair_ano_uf_sufixos.1 "_PARTE2" (by decide)).1⟩

/-! ## Claim C7 -/

/-- C7: a vote-count cell holding one of the null-sentinel tokens (`#NULO`,
`#NE`), or missing entirely, is transformed to `0` rather than an error; the
sentinel tokens are replaced by true absence before numeric coercion
(`limparSentinela` maps them to `none`, and `processar_votos_core` applies
`limparFrame` before `paraNumero`). -/
theorem votos_sentinela_zero :
    (∀ (nomeArq : String) (df : Frame) (cm : Colunas) (out : List LinhaVoto)
        (i : Nat) (r : LinhaVoto) (row : Linha),
      detectar_colunas df = some cm →
      processar_votos_core nomeArq df = some out →
      out[i]? = some r → df.rows[i]? = some row →
      (celula row cm.vote = some "#NULO" ∨ celula row cm.vote = some "#NE" ∨
        celula row cm.vote = none) →
      r.votos = 0) ∧
    limparSentinela (some "#NULO") = none ∧ limparSentinela (some "#NE") = none := by
  refine ⟨?_, rfl, rfl⟩
  intro nomeArq df cm out i r row hcm hout hr hrow hcell
  rw [votos_core_indice nomeArq df cm out i r row hcm hout hr hrow]
  rcases hcell with h | h | h <;> rw [h] <;> rfl

/-- C7 witness: the three rows of `quadroSentinela` (sentinel `#NULO`,
sentinel `#NE`, garbage `abc`) all coerce to vote count `0`. -/
theorem votos_sentinela_zero_teste :
    detectar_colunas quadroSentinela = some ⟨"QT_VOTOS", none, none, none, none⟩ ∧
    processar_votos_core "votacao_secao_2024_AC.csv" quadroSentinela = some saidaSent ∧
    saidaSent[0]? = some linhaSent ∧
    quadroSentinela.rows[0]? = some [("QT_VOTOS", some "#NULO")] ∧
    celula [("QT_VOTOS", some "#NULO")] (Colunas.mk "QT_VOTOS" none none none none).vote =
        some "#NULO" ∧
    linhaSent.votos = 0 :=
  ⟨by decide, by decide, by decide, by decide, by decide,
   votos_sentinela_zero.1 "votacao_secao_2024_AC.csv" quadroSentinela
     ⟨"QT_VOTOS", none, none, none, none⟩ saidaSent 0 linhaSent
     [("QT_VOTOS", some "#NULO")] (by decide) (by decide) (by decide) (by decide)
     (Or.inl (by decide))⟩

/-! ## Claim C8 -/

/-- C8 counterexample: a negative numeric vote-count string passes through
coercion unchanged, so a loaded `votos` row can violate `vote_count ≥ 0`. -/
theorem votos_negativos_passam :
    (processar_votos_core "votacao_secao_2024_SP.csv" quadroNegativo).map
        (List.map (fun r => r.votos)) = some [(-5 : Int)] ∧
      ¬ (0 : Int) ≤ (-5 : Int) :=
  ⟨by decide, by decide⟩

/-- C8 amended: unparseable or missing vote cells coerce to `0` and parseable
numerals pass through unchanged, so every loaded row satisfies
`vote_count ≥ 0` exactly when every parseable vote cell of the source frame
is non-negative; negative numeric strings are NOT clamped. -/
theorem votos_nao_negativos_se_fonte_ok (nomeArq : String) (df : Frame) (cm : Colunas)
    (out : List LinhaVoto)
    (hcm : detectar_colunas df = some cm)
    (hout : processar_votos_core nomeArq df = some out)
    (hpos : ∀ row ∈ df.rows, ∀ (s : String) (n : Int),
      celula row cm.vote = some s → paraInteiro s = some n → 0 ≤ n) :
    ∀ r ∈ out, 0 ≤ r.votos := by
  intro r hr
  obtain ⟨row, hrow, rfl⟩ := votos_core_membro nomeArq df cm out r hcm hout hr
  rw [montaLinhaVoto_votos, celula_limpar]
  exact paraNumero_limpar_nonneg _ (hpos row hrow)

/-- C8 witness: on `quadroBom` (single non-negative numeral) every loaded row
has a non-negative vote count. -/
theorem votos_nao_negativos_se_fonte_ok_teste :
    detectar_colunas quadroBom = some ⟨"QT_VOTOS", none, none, none, none⟩ ∧
    processar_votos_core "votacao_secao_2024_SP.csv" quadroBom = some saidaBoa ∧
    (∀ r ∈ saidaBoa, 0 ≤ r.votos) :=
  ⟨by decide, by decide,
   votos_nao_negativos_se_fonte_ok "votacao_secao_2024_SP.csv" quadroBom
     ⟨"QT_VOTOS", none, none, none, none⟩ saidaBoa (by decide) (by decide)
     (by
       intro row hrow s n hs hn
       fin_cases hrow
       have h7 : celula [("QT_VOTOS", some "7")] "QT_VOTOS" = some "7" := by decide
       rw [h7] at hs
       obtain rfl := Option.some.inj hs
       have h7' : paraInteiro "7" = some 7 := by decide
       rw [h7'] at hn
       obtain rfl := Option.some.inj hn
       decide)⟩

/-! ## Claim C9 -/

/-- C9: a file whose strict CSV parse fails with a row-structure
(`ParserError`) failure is retried exactly once in lenient mode; if the
lenient parse also fails the reader returns `none` (the file is skipped) and
the ingestion loop processes the remaining files exactly as if the file were
absent — a per-file parse failure is never fatal to the run. -/
theorem ler_csv_flex_uma_retentativa (a : Arquivo) (fs : List Arquivo) (st : BD × Nat)
    (h : a.leituraEstrita = ResultadoLeitura.erroParser) :
    (ler_csv_flex_tr a).2 = 1 ∧
      (a.leituraFlex.deuCerto = false →
        ler_csv_flex a = none ∧ ingerirLista (a :: fs) st = ingerirLista fs st) := by
  obtain ⟨nome, est, flex⟩ := a
  simp only at h
  subst h
  constructor
  · cases flex <;> rfl
  · intro hf
    have hnone : ler_csv_flex ⟨nome, .erroParser, flex⟩ = none := by
      cases flex with
      | ok df => simp [ResultadoLeitura.deuCerto] at hf
      | erroParser => rfl
      | erroOutro => rfl
    refine ⟨hnone, ?_⟩
    show ingerirLista fs (ingerirArquivo ⟨nome, .erroParser, flex⟩ st) = ingerirLista fs st
    rw [ingerirArquivo_sem_leitura _ st hnone]

/-- C9 witness: `arquivoRuim` fails both parses; it is skipped and the run
continues unchanged. -/
theorem ler_csv_flex_uma_retentativa_teste :
    arquivoRuim.leituraEstrita = ResultadoLeitura.erroParser ∧
    arquivoRuim.leituraFlex.deuCerto = false ∧
    (ler_csv_flex_tr arquivoRuim).2 = 1 ∧
    ler_csv_flex arquivoRuim = none ∧
    ingerirLista [arquivoRuim] (bdVazio, 0) = ingerirLista [] (bdVazio, 0) :=
  ⟨rfl, rfl,
   (ler_csv_flex_uma_retentativa arquivoRuim [] (bdVazio, 0) rfl).1,
   ((ler_csv_flex_uma_retentativa arquivoRuim [] (bdVazio, 0) rfl).2 rfl).1,
   ((ler_csv_flex_uma_retentativa arquivoRuim [] (bdVazio, 0) rfl).2 rfl).2⟩

/-! ## Claim C10 -/

/-- C10: with `clear_table = true` the four tables are dropped before the
data directory is examined, so a missing directory or an empty listing makes
`ingest_all` return `0` without raising while leaving all four tables
dropped.  (`DATA_DIR` itself is spec-modelled: `ingestor.py` references it
without defining it — see `Diretorio`.) -/
theorem ingest_all_limpa_sem_dados (dir : Diretorio) (bd : BD)
    (h : dir.existe = false ∨ dir.arquivos = []) :
    ingest_all true dir bd = (0, bdVazio) := by
  obtain ⟨e, fs⟩ := dir
  rcases h with h | h
  · simp only at h
    subst h
    rfl
  · simp only at h
    subst h
    cases e <;> rfl

/-- C10 witness: a missing data directory returns `0` and leaves every table
dropped, whatever was in the sink before. -/
theorem ingest_all_limpa_sem_dados_teste :
    ((⟨false, []⟩ : Diretorio).existe = false ∨ (⟨false, []⟩ : Diretorio).arquivos = []) ∧
    ingest_all true ⟨false, []⟩ bdComMeta = (0, bdVazio) :=
  ⟨Or.inl rfl, ingest_all_limpa_sem_dados ⟨false, []⟩ bdComMeta (Or.inl rfl)⟩
